import Mathlib

/-!
# Verification of the gobuild distributed build pipeline

Shallow embedding of the Go sources of the build pipeline
(`gobuild/build-orchestrator/main.go`, `gobuild/builder/main.go`,
`gobuild/notification/main.go`, the shared Kafka wrapper
`shared/kafka/{producer,consumer}.go`, the shared message types
`shared/message/types.go`, and the status-dashboard-api service), together
with theorems settling the specification's claims about them.

Conventions of the embedding:
* `time.Time` values are modelled as `Nat` timestamps (`0` is Go's zero time).
* Kafka publishes and subprocess invocations are recorded in an explicit
  trace (`Publish` / `Action`); broker sends and store writes are modelled
  as infallible (the claims under study do not concern send failures).
* The Redis store of a component is modelled as an association list keyed by
  build id; the orchestrator keeps its in-memory `jobs` map and the Redis
  `build:<id>` key in lock step on every write, so a single association list
  models both.
* Go's `encoding/json` unmarshalling is lenient: decoding a JSON object into
  a struct succeeds even when the object was produced from a different
  struct, filling fields by json tag and zeroing the absent ones.  The
  `unmarshalAs…` functions reproduce this field-by-tag mapping for the wire
  message types.
-/

namespace GoBuild

/-- `shared/message/types.go`: `BuildRequestMessage`. -/
structure BuildRequestMessage where
  id : String
  repositoryURL : String
  branch : String
  commitHash : String
  userID : String
  createdAt : Nat
  deriving DecidableEq, Repr

/-- `shared/message/types.go`: `BuildStatusMessage`
(json tags: build_id, status, message, updated_at). -/
structure BuildStatusMessage where
  buildID : String
  status : String
  message : String
  updatedAt : Nat
  deriving DecidableEq, Repr

/-- `shared/message/types.go`: `BuildLogMessage`
(json tags: build_id, log_entry, timestamp). -/
structure BuildLogMessage where
  buildID : String
  logEntry : String
  timestamp : Nat
  deriving DecidableEq, Repr

/-- `shared/message/types.go`: `BuildCompletionMessage`
(json tags: build_id, status, artifact_url, duration, completed_at). -/
structure BuildCompletionMessage where
  buildID : String
  status : String
  artifactURL : String
  duration : Nat
  completedAt : Nat
  deriving DecidableEq, Repr

/-- The JSON payload of a message on the bus: which struct it was marshalled
from, with its field values. -/
inductive WireMessage where
  | reqW (m : BuildRequestMessage)
  | statusW (m : BuildStatusMessage)
  | logW (m : BuildLogMessage)
  | completionW (m : BuildCompletionMessage)
  deriving DecidableEq, Repr

/-- One `Producer.SendMessage(topic, key, value)` call
(`shared/kafka/producer.go`). -/
structure Publish where
  topic : String
  key : String
  msg : WireMessage
  deriving DecidableEq, Repr

/-! ## Lenient JSON decoding (`encoding/json` semantics)

Go's `json.Unmarshal` into a struct succeeds on any JSON object: fields are
matched by json tag, absent fields are zeroed.  These functions compute, for
each possible payload, the result of unmarshalling it into each message
struct.  Shared tags: all three event structs carry `build_id`;
`BuildStatusMessage` and `BuildCompletionMessage` share `status`;
`BuildRequestMessage` uses `id`, not `build_id`, so its decoding as an event
yields an empty `build_id`. -/

/-- Unmarshal a payload as `BuildStatusMessage`
(tags build_id, status, message, updated_at). -/
def unmarshalAsStatus : WireMessage → BuildStatusMessage
  | .statusW m => m
  | .logW m => ⟨m.buildID, "", "", 0⟩
  | .completionW m => ⟨m.buildID, m.status, "", 0⟩
  | .reqW _ => ⟨"", "", "", 0⟩

/-- Unmarshal a payload as `BuildLogMessage`
(tags build_id, log_entry, timestamp). -/
def unmarshalAsLog : WireMessage → BuildLogMessage
  | .statusW m => ⟨m.buildID, "", 0⟩
  | .logW m => m
  | .completionW m => ⟨m.buildID, "", 0⟩
  | .reqW _ => ⟨"", "", 0⟩

/-- Unmarshal a payload as `BuildCompletionMessage`
(tags build_id, status, artifact_url, duration, completed_at). -/
def unmarshalAsCompletion : WireMessage → BuildCompletionMessage
  | .statusW m => ⟨m.buildID, m.status, "", 0, 0⟩
  | .logW m => ⟨m.buildID, "", "", 0, 0⟩
  | .completionW m => m
  | .reqW _ => ⟨"", "", "", 0, 0⟩

/-! ## Build Orchestrator (`gobuild/build-orchestrator/main.go`) -/

/-- `BuildJob` (orchestrator's record of one build).  Note: it has `status`,
`createdAt`, `updatedAt` but no artifact, duration or completed-at field. -/
structure BuildJob where
  id : String
  repositoryURL : String
  branch : String
  commitHash : String
  userID : String
  status : String
  createdAt : Nat
  updatedAt : Nat
  deriving DecidableEq, Repr

/-- The orchestrator's store: the in-memory `jobs` map together with the
Redis `build:<id>` keys it mirrors, keyed by build id. -/
abbrev OrchState := List (String × BuildJob)

/-- Result of an orchestrator handler: the new store, the messages published
to Kafka, and the Redis keys written (in write order). -/
structure OrchEffect where
  state : OrchState
  published : List Publish
  writtenKeys : List String
  deriving DecidableEq, Repr

/-- Overwrite the record of build `id` (Go map assignment + Redis `Set`). -/
def setJob (s : OrchState) (id : String) (j : BuildJob) : OrchState :=
  s.map (fun p => if p.1 = id then (id, j) else p)

/-- `BuildOrchestrator.ProcessBuildRequest`: creates the job with status
"queued", stores it under `build:<id>`, also stores a status view under
`build:status:<id>`, publishes a queued `StatusChanged` on `build-status`,
and dispatches the request to `build-jobs`. -/
def processBuildRequest (s : OrchState) (req : BuildRequestMessage)
    (now : Nat) : OrchEffect :=
  let job : BuildJob :=
    ⟨req.id, req.repositoryURL, req.branch, req.commitHash, req.userID,
      "queued", req.createdAt, now⟩
  let s1 : OrchState := (req.id, job) :: s.filter (fun p => p.1 ≠ req.id)
  { state := s1
    published :=
      [⟨"build-status", job.id,
          .statusW ⟨job.id, job.status, "Build queued for processing", job.updatedAt⟩⟩,
        ⟨"build-jobs", job.id, .reqW req⟩]
    writtenKeys := ["build:" ++ job.id, "build:status:" ++ job.id] }

/-- `BuildOrchestrator.ProcessBuildStatus`: looks the job up (memory, then
Redis); if absent, logs and returns nil without writing or publishing;
otherwise unconditionally overwrites `Status` and `UpdatedAt` with the
event's values, persists, and re-publishes the event on `build-status`. -/
def processBuildStatus (s : OrchState) (m : BuildStatusMessage) :
    OrchState × List Publish :=
  match s.lookup m.buildID with
  | none => (s, [])
  | some job =>
      let job' : BuildJob := { job with status := m.status, updatedAt := m.updatedAt }
      (setJob s m.buildID job', [⟨"build-status", m.buildID, .statusW m⟩])

/-- `BuildOrchestrator.ProcessBuildCompletion`: same shape as
`ProcessBuildStatus` — if the job is absent it is a logged no-op, otherwise
`Status := completion.Status`, `UpdatedAt := completion.CompletedAt`, persist,
and forward the completion on `build-completions`.  The orchestrator record
has no artifact, duration or completed-at field to set. -/
def processBuildCompletion (s : OrchState) (m : BuildCompletionMessage) :
    OrchState × List Publish :=
  match s.lookup m.buildID with
  | none => (s, [])
  | some job =>
      let job' : BuildJob := { job with status := m.status, updatedAt := m.completedAt }
      (setJob s m.buildID job', [⟨"build-completions", m.buildID, .completionW m⟩])

/-- Statuses that the running system treats as terminal for a build: the
completion statuses written by `ProcessBuildCompletion` ("success",
"failure") and the terminal `StatusChanged` statuses ("completed",
"failed"). -/
def isTerminalStatus (s : String) : Bool :=
  s = "success" || s = "failure" || s = "completed" || s = "failed"

end GoBuild

namespace GoBuild

/-! ## Builder (`gobuild/builder/main.go`)

The builder's observable behaviour is a trace of Kafka publishes,
subprocess invocations and the artifact-upload HTTP POST.  The outcome of
each external step (subprocess exit and captured combined output, mkdir,
upload) is supplied by a `BuildEnv`, one field per external interaction of
`ProcessBuildJob`; the contents of the cloned working directory are the
boolean marker-file fields. -/

/-- Outcome of one subprocess invocation: on failure, `err` is Go's
`err.Error()` and `output` the captured combined stdout/stderr. -/
inductive StepResult where
  | ok (output : String)
  | fail (err : String) (output : String)
  deriving DecidableEq, Repr

/-- The environment a single build job executes against. -/
structure BuildEnv where
  mkdirErr : Option String
  clone : StepResult
  checkout : StepResult
  hasBuildScript : Bool
  hasPackageJson : Bool
  hasGoMod : Bool
  hasPnpmLock : Bool
  hasPackageLock : Bool
  hasYarnLock : Bool
  script : StepResult
  install : StepResult
  nodeBuild : StepResult
  goBuild : StepResult
  tar : StepResult
  upload : Option String
  deriving DecidableEq, Repr

/-- One observable step of the builder. -/
inductive Action where
  | pub (p : Publish)
  | run (prog : String) (args : List String) (dir : String)
  | post (url : String)
  deriving DecidableEq, Repr

/-- `workDir` fixed in `main()` of the builder. -/
def builderWorkDir : String := "/app/work"

/-- Default `STORAGE_URL` of the builder. -/
def builderStorageURL : String := "http://storage:8084"

/-- `buildDir := filepath.Join(b.workDir, buildReq.ID)`. -/
def buildDirOf (id : String) : String := builderWorkDir ++ "/" ++ id

/-- Shorthand for a `build-logs` publish. -/
def logPub (id line : String) (now : Nat) : Action :=
  .pub ⟨"build-logs", id, .logW ⟨id, line, now⟩⟩

/-- `Builder.failBuild`: failure log line, then the failure completion
(empty artifact, duration 0), then the failed status carrying the reason. -/
def failBuild (id errorMsg : String) (now : Nat) : List Action :=
  [logPub id ("Build failed: " ++ errorMsg) now,
    .pub ⟨"build-completions", id, .completionW ⟨id, "failure", "", 0, now⟩⟩,
    .pub ⟨"build-status", id, .statusW ⟨id, "failed", errorMsg, now⟩⟩]

/-- `Builder.detectProjectType`: `package.json` ⇒ node, else `go.mod` ⇒ go,
else unknown. -/
def detectProjectType (env : BuildEnv) : String :=
  if env.hasPackageJson then "node"
  else if env.hasGoMod then "go"
  else "unknown"

/-- `Builder.detectNodePackageManager`: `pnpm-lock.yaml` ⇒ pnpm, else
`package-lock.json` ⇒ npm, else `yarn.lock` ⇒ yarn, else unknown. -/
def detectNodePackageManager (env : BuildEnv) : String :=
  if env.hasPnpmLock then "pnpm"
  else if env.hasPackageLock then "npm"
  else if env.hasYarnLock then "yarn"
  else "unknown"

/-- `Builder.runBuildScript`: log, `/bin/sh build.sh` in the build dir,
then the success/failure log; error `"build script failed: <err>"`. -/
def runBuildScript (id : String) (env : BuildEnv) (now : Nat) :
    List Action × Option String :=
  let pre := [logPub id "Executing build script" now,
    Action.run "/bin/sh" ["build.sh"] (buildDirOf id)]
  match env.script with
  | .fail e out =>
      (pre ++ [logPub id ("Build script failed: " ++ e ++ "\nOutput: " ++ out) now],
        some ("build script failed: " ++ e))
  | .ok out =>
      (pre ++ [logPub id ("Build script completed successfully\n" ++ out) now], none)

/-- Lines 207–210 of `buildNodeProject`: the manager actually invoked —
the detected one, with unknown defaulting to npm. -/
def nodePackageManagerUsed (env : BuildEnv) : String :=
  let pm0 := detectNodePackageManager env
  if pm0 = "unknown" then "npm" else pm0

/-- `Builder.buildNodeProject`: pick the package manager (unknown defaults
to npm), `<pm> install`, then `<pm> run build`; an install failure returns
before the build command is ever run. -/
def buildNodeProject (id : String) (env : BuildEnv) (now : Nat) :
    List Action × Option String :=
  let pm := nodePackageManagerUsed env
  let pre := [logPub id "Detected Node.js project, running npm install and build" now,
    logPub id ("Using package manager: " ++ pm) now,
    Action.run pm ["install"] (buildDirOf id)]
  match env.install with
  | .fail e out =>
      (pre ++ [logPub id (pm ++ " install failed: " ++ e ++ "\nOutput: " ++ out) now],
        some ("failed to install dependencies: " ++ e))
  | .ok out =>
      let pre2 := pre ++ [logPub id ("Dependencies installed successfully\n" ++ out) now,
        Action.run pm ["run", "build"] (buildDirOf id)]
      match env.nodeBuild with
      | .fail e out2 =>
          (pre2 ++ [logPub id (pm ++ " build failed: " ++ e ++ "\nOutput: " ++ out2) now],
            some ("failed to build project: " ++ e))
      | .ok out2 =>
          (pre2 ++ [logPub id ("Project built successfully\n" ++ out2) now], none)

/-- `Builder.buildGoProject`: `go build -o app` in the build dir. -/
def buildGoProject (id : String) (env : BuildEnv) (now : Nat) :
    List Action × Option String :=
  let pre := [logPub id "Detected Go project, running go build" now,
    Action.run "go" ["build", "-o", "app"] (buildDirOf id)]
  match env.goBuild with
  | .fail e out =>
      (pre ++ [logPub id ("go build failed: " ++ e ++ "\nOutput: " ++ out) now],
        some ("failed to build project: " ++ e))
  | .ok out =>
      (pre ++ [logPub id ("Go project built successfully\n" ++ out) now], none)

/-- `Builder.buildByProjectType`: dispatch on the detected type; the default
branch fails with no emission. -/
def buildByProjectType (id : String) (env : BuildEnv) (now : Nat)
    (projectType : String) : List Action × Option String :=
  if projectType = "node" then buildNodeProject id env now
  else if projectType = "go" then buildGoProject id env now
  else ([], some ("unknown project type: " ++ projectType ++ ", no build script found"))

/-- `Builder.executeBuild`: a `build.sh` in the working directory runs the
custom script; only otherwise is project-type detection consulted. -/
def executeBuild (id : String) (env : BuildEnv) (now : Nat) :
    List Action × Option String :=
  if env.hasBuildScript then runBuildScript id env now
  else buildByProjectType id env now (detectProjectType env)

/-- `Builder.createAndUploadArtifact`: tar the build dir, then POST it to
the storage service. -/
def createAndUploadArtifact (id : String) (env : BuildEnv) (now : Nat) :
    List Action × Option String :=
  let tempArtifactPath := builderWorkDir ++ "/" ++ id ++ ".tar.gz"
  let pre := [logPub id "Creating artifact..." now,
    Action.run "tar" ["-czf", tempArtifactPath, "."] (buildDirOf id)]
  match env.tar with
  | .fail e out =>
      (pre ++ [logPub id ("Failed to create artifact: " ++ e ++ "\nOutput: " ++ out) now],
        some ("failed to create artifact: " ++ e))
  | .ok _ =>
      let pre2 := pre ++ [logPub id "Uploading artifact to storage..." now,
        Action.post (builderStorageURL ++ "/artifacts/" ++ id)]
      match env.upload with
      | some e =>
          (pre2 ++ [logPub id ("Failed to upload artifact: " ++ e) now],
            some ("failed to upload artifact: " ++ e))
      | none =>
          (pre2 ++ [logPub id "Artifact uploaded successfully" now], none)

/-- The checkout guard of `ProcessBuildJob`: a branch is checked out only
when one was requested and it is not a default branch name. -/
def needsCheckout (branch : String) : Bool :=
  branch ≠ "" && branch ≠ "main" && branch ≠ "master"

/-- Lines 142–171 of `ProcessBuildJob` (after clone/checkout): execute the
build, package and upload, then emit the success completion (artifact
reference `/artifacts/<id>`, duration since the request's creation) followed
by the completed status; each failure goes to `failBuild`. -/
def finishBuild (req : BuildRequestMessage) (env : BuildEnv) (now : Nat) :
    List Action :=
  match executeBuild req.id env now with
  | (t, some e) => t ++ failBuild req.id e now
  | (t, none) =>
      match createAndUploadArtifact req.id env now with
      | (t2, some e) =>
          t ++ (t2 ++ failBuild req.id ("Failed to create artifact: " ++ e) now)
      | (t2, none) =>
          t ++ (t2 ++
            [.pub ⟨"build-completions", req.id,
                .completionW ⟨req.id, "success", "/artifacts/" ++ req.id,
                  now - req.createdAt, now⟩⟩,
              .pub ⟨"build-status", req.id,
                .statusW ⟨req.id, "completed", "Build completed successfully", now⟩⟩])

/-- `Builder.ProcessBuildJob`: in-progress status, working directory,
clone, optional checkout, then `finishBuild`; every step failure aborts the
rest through `failBuild`. -/
def processBuildJob (req : BuildRequestMessage) (env : BuildEnv) (now : Nat) :
    List Action :=
  Action.pub ⟨"build-status", req.id, .statusW ⟨req.id, "in-progress", "Build started", now⟩⟩ ::
  match env.mkdirErr with
  | some e => failBuild req.id ("Failed to create build directory: " ++ e) now
  | none =>
    logPub req.id "Cloning repository..." now ::
    Action.run "git" ["clone", req.repositoryURL, buildDirOf req.id] "" ::
    match env.clone with
    | .fail e out =>
        logPub req.id ("Clone failed: " ++ e ++ "\nOutput: " ++ out) now ::
        failBuild req.id ("Failed to clone repository: " ++ e) now
    | .ok out =>
        logPub req.id ("Repository cloned successfully\n" ++ out) now ::
        if needsCheckout req.branch then
          logPub req.id ("Checking out branch: " ++ req.branch) now ::
          Action.run "git" ["checkout", req.branch] (buildDirOf req.id) ::
          match env.checkout with
          | .fail e out2 =>
              logPub req.id ("Checkout failed: " ++ e ++ "\nOutput: " ++ out2) now ::
              failBuild req.id ("Failed to checkout branch: " ++ e) now
          | .ok out2 =>
              logPub req.id ("Branch checked out successfully\n" ++ out2) now ::
              finishBuild req env now
        else
          finishBuild req env now

/-- The completion events in a builder trace, in order. -/
def completionsOf (t : List Action) : List BuildCompletionMessage :=
  t.filterMap fun a =>
    match a with
    | .pub p =>
        if p.topic = "build-completions" then
          match p.msg with
          | .completionW c => some c
          | _ => none
        else none
    | _ => none

/-- The subprocess invocations in a builder trace, in order. -/
def runsOf (t : List Action) : List (String × List String) :=
  t.filterMap fun a =>
    match a with
    | .run prog args _ => some (prog, args)
    | _ => none

/-- The failure reason produced in the post-checkout region of
`ProcessBuildJob` (lines 142–150): the error of `executeBuild`, or the
prefixed error of `createAndUploadArtifact`. -/
def finishFailureReason (req : BuildRequestMessage) (env : BuildEnv) (now : Nat) :
    Option String :=
  match executeBuild req.id env now with
  | (_, some e) => some e
  | (_, none) =>
      match createAndUploadArtifact req.id env now with
      | (_, some e) => some ("Failed to create artifact: " ++ e)
      | (_, none) => none

/-- The failure reason `ProcessBuildJob` hands to `failBuild`, following the
source's control flow; `none` when every step succeeds. -/
def firstFailureReason (req : BuildRequestMessage) (env : BuildEnv) (now : Nat) :
    Option String :=
  match env.mkdirErr with
  | some e => some ("Failed to create build directory: " ++ e)
  | none =>
    match env.clone with
    | .fail e _ => some ("Failed to clone repository: " ++ e)
    | .ok _ =>
        if needsCheckout req.branch then
          match env.checkout with
          | .fail e _ => some ("Failed to checkout branch: " ++ e)
          | .ok _ => finishFailureReason req env now
        else
          finishFailureReason req env now

end GoBuild

namespace GoBuild

/-! ## Helper lemmas on the orchestrator store -/

theorem setJob_cons (k : String) (v : BuildJob) (rest : OrchState)
    (id : String) (j : BuildJob) :
    setJob ((k, v) :: rest) id j =
      (if k = id then (id, j) else (k, v)) :: setJob rest id j := rfl

theorem lookup_cons_self (k : String) (v : BuildJob) (rest : OrchState) :
    List.lookup k ((k, v) :: rest) = some v := by
  simp [List.lookup]

theorem lookup_cons_ne (k id : String) (v : BuildJob) (rest : OrchState)
    (h : k ≠ id) : List.lookup id ((k, v) :: rest) = List.lookup id rest := by
  have hb : (id == k) = false := beq_eq_false_iff_ne.mpr (Ne.symm h)
  simp [List.lookup, hb]

theorem lookup_setJob_self (s : OrchState) (id : String) (j j' : BuildJob)
    (h : s.lookup id = some j) : (setJob s id j').lookup id = some j' := by
  induction s with
  | nil => simp [List.lookup] at h
  | cons p rest ih =>
      obtain ⟨k, v⟩ := p
      by_cases hk : k = id
      · subst hk
        rw [setJob_cons, if_pos rfl, lookup_cons_self]
      · rw [lookup_cons_ne k id v rest hk] at h
        rw [setJob_cons, if_neg hk, lookup_cons_ne k id v _ hk]
        exact ih h

theorem setJob_setJob (s : OrchState) (id : String) (a b : BuildJob) :
    setJob (setJob s id a) id b = setJob s id b := by
  induction s with
  | nil => rfl
  | cons p rest ih =>
      obtain ⟨k, v⟩ := p
      by_cases hk : k = id
      · subst hk
        simp [setJob_cons, ih]
      · simp [setJob_cons, hk, ih]

/-! ## Concrete builds used by the counterexamples -/

/-- A concrete submitted build request. -/
def reqC1 : BuildRequestMessage :=
  ⟨"b1", "https://example.com/repo.git", "", "", "u1", 100⟩

/-- The failure completion the builder publishes for `b1`. -/
def failCompletionC1 : BuildCompletionMessage := ⟨"b1", "failure", "", 0, 120⟩

/-- A late (redelivered) in-progress status event for `b1`. -/
def lateStatusC1 : BuildStatusMessage := ⟨"b1", "in-progress", "Build started", 115⟩

/-- C1: the claim states that once a build's record is terminal, a later
`StatusChanged` event leaves the record unchanged.  Counterexample on the
code: create `b1`, apply its failure completion (record reaches the
terminal status "failure"), then apply a late in-progress status event —
`ProcessBuildStatus` has no terminal-phase guard and overwrites the record,
moving it back to "in-progress". -/
theorem orchestrator_terminal_phase_not_sticky :
    ((processBuildCompletion (processBuildRequest [] reqC1 110).state
        failCompletionC1).1.lookup "b1").map BuildJob.status = some "failure" ∧
    isTerminalStatus "failure" = true ∧
    (processBuildStatus
        (processBuildCompletion (processBuildRequest [] reqC1 110).state
          failCompletionC1).1 lateStatusC1).1 ≠
      (processBuildCompletion (processBuildRequest [] reqC1 110).state
        failCompletionC1).1 ∧
    ((processBuildStatus
        (processBuildCompletion (processBuildRequest [] reqC1 110).state
          failCompletionC1).1 lateStatusC1).1.lookup "b1").map BuildJob.status =
      some "in-progress" := by
  decide

/-- C1 (amended): the orchestrator folds progress events with no phase
guard at all: when a record for the build exists, a `StatusChanged` or
`Completed` event unconditionally overwrites the record's status and
timestamp with the event's values (also out of a terminal phase), and the
event is re-forwarded; when no record exists, the event is a logged no-op
that changes nothing and publishes nothing. -/
theorem orchestrator_event_merge_unguarded (s : OrchState)
    (m : BuildStatusMessage) (c : BuildCompletionMessage) :
    (∀ j, s.lookup m.buildID = some j →
      processBuildStatus s m =
        (setJob s m.buildID { j with status := m.status, updatedAt := m.updatedAt },
          [⟨"build-status", m.buildID, .statusW m⟩])) ∧
    (s.lookup m.buildID = none → processBuildStatus s m = (s, [])) ∧
    (∀ j, s.lookup c.buildID = some j →
      processBuildCompletion s c =
        (setJob s c.buildID { j with status := c.status, updatedAt := c.completedAt },
          [⟨"build-completions", c.buildID, .completionW c⟩])) ∧
    (s.lookup c.buildID = none → processBuildCompletion s c = (s, [])) := by
  refine ⟨fun j hj => ?_, fun hn => ?_, fun j hj => ?_, fun hn => ?_⟩ <;>
    simp [processBuildStatus, processBuildCompletion, *]

/-- Witness for `orchestrator_event_merge_unguarded` at a concrete store
and concrete events. -/
theorem orchestrator_event_merge_unguarded_witness :
    processBuildStatus [("b1", ⟨"b1", "r", "", "", "u", "failure", 1, 2⟩)]
        ⟨"b1", "in-progress", "m", 3⟩ =
      ([("b1", ⟨"b1", "r", "", "", "u", "in-progress", 1, 3⟩)],
        [⟨"build-status", "b1", .statusW ⟨"b1", "in-progress", "m", 3⟩⟩]) ∧
    processBuildCompletion [("b1", ⟨"b1", "r", "", "", "u", "failure", 1, 2⟩)]
        ⟨"b9", "success", "/artifacts/b9", 5, 9⟩ =
      ([("b1", ⟨"b1", "r", "", "", "u", "failure", 1, 2⟩)], []) := by
  constructor
  · exact (orchestrator_event_merge_unguarded
      [("b1", ⟨"b1", "r", "", "", "u", "failure", 1, 2⟩)]
      ⟨"b1", "in-progress", "m", 3⟩ ⟨"b9", "success", "/artifacts/b9", 5, 9⟩).1
      ⟨"b1", "r", "", "", "u", "failure", 1, 2⟩ (by decide)
  · exact (orchestrator_event_merge_unguarded
      [("b1", ⟨"b1", "r", "", "", "u", "failure", 1, 2⟩)]
      ⟨"b1", "in-progress", "m", 3⟩ ⟨"b9", "success", "/artifacts/b9", 5, 9⟩).2.2.2
      (by decide)

end GoBuild

namespace GoBuild

/-- The build request used in the duplicate-completion counterexample. -/
def reqC3 : BuildRequestMessage :=
  ⟨"b3", "https://example.com/node-repo.git", "", "", "u1", 100⟩

/-- The success completion the builder publishes for `b3`. -/
def successCompletionC3 : BuildCompletionMessage :=
  ⟨"b3", "success", "/artifacts/b3", 40, 140⟩

/-- C3: the claim states that a duplicate `Completed` event "causes no
further side effect" and that the first one "sets artifact_reference,
duration, and completed_at".  Counterexample on the code: the second
application of the same completion leaves the record unchanged, but it
re-forwards the completion to the `build-completions` topic — a further
side effect (and the orchestrator record has no artifact/duration/
completed-at fields to set in the first place). -/
theorem orchestrator_duplicate_completion_republishes :
    (processBuildCompletion
        (processBuildCompletion (processBuildRequest [] reqC3 110).state
          successCompletionC3).1 successCompletionC3).1 =
      (processBuildCompletion (processBuildRequest [] reqC3 110).state
        successCompletionC3).1 ∧
    (processBuildCompletion
        (processBuildCompletion (processBuildRequest [] reqC3 110).state
          successCompletionC3).1 successCompletionC3).2 =
      [⟨"build-completions", "b3", .completionW successCompletionC3⟩] ∧
    (processBuildCompletion
        (processBuildCompletion (processBuildRequest [] reqC3 110).state
          successCompletionC3).1 successCompletionC3).2 ≠ [] := by
  decide

/-- C3 (amended): applying the same `Completed` event twice yields the same
record as applying it once — the handler only copies the event's status
into `Status` and its completion time into `UpdatedAt` (the record has no
artifact_reference, duration or completed_at field), so the duplicate
leaves the store unchanged; but every application whose build exists,
including the duplicate, forwards the completion to the `build-completions`
topic again. -/
theorem orchestrator_completion_idempotent_on_record (s : OrchState)
    (m : BuildCompletionMessage) :
    (processBuildCompletion (processBuildCompletion s m).1 m).1 =
      (processBuildCompletion s m).1 ∧
    (∀ j, s.lookup m.buildID = some j →
      (processBuildCompletion (processBuildCompletion s m).1 m).2 =
        [⟨"build-completions", m.buildID, .completionW m⟩]) := by
  constructor
  · match hs : s.lookup m.buildID with
    | none => simp [processBuildCompletion, hs]
    | some j =>
        have h1 : (setJob s m.buildID
            { j with status := m.status, updatedAt := m.completedAt }).lookup m.buildID =
            some { j with status := m.status, updatedAt := m.completedAt } :=
          lookup_setJob_self s m.buildID j _ hs
        simp [processBuildCompletion, hs, h1, setJob_setJob]
  · intro j hs
    have h1 : (setJob s m.buildID
        { j with status := m.status, updatedAt := m.completedAt }).lookup m.buildID =
        some { j with status := m.status, updatedAt := m.completedAt } :=
      lookup_setJob_self s m.buildID j _ hs
    simp [processBuildCompletion, hs, h1]

/-- Witness for `orchestrator_completion_idempotent_on_record` at a
concrete store and completion. -/
theorem orchestrator_completion_idempotent_on_record_witness :
    (processBuildCompletion
        (processBuildCompletion [("b4", ⟨"b4", "r", "", "", "u", "queued", 1, 2⟩)]
          ⟨"b4", "failure", "", 0, 9⟩).1 ⟨"b4", "failure", "", 0, 9⟩).2 =
      [⟨"build-completions", "b4", .completionW ⟨"b4", "failure", "", 0, 9⟩⟩] :=
  (orchestrator_completion_idempotent_on_record
      [("b4", ⟨"b4", "r", "", "", "u", "queued", 1, 2⟩)]
      ⟨"b4", "failure", "", 0, 9⟩).2
    ⟨"b4", "r", "", "", "u", "queued", 1, 2⟩ (by decide)

end GoBuild

namespace GoBuild

/-! ## Status Dashboard API (`status-dashboard-api/main.go`)

The dashboard consumes `build-status`, `build-logs` and `build-completions`
and folds events into Redis `build:<id>` records (note: the *same* key
scheme the orchestrator persists its `BuildJob` under) and `logs:<id>`
lists.  Its consumer handler does not dispatch on the topic: it tries to
unmarshal every payload as a status message first, then as a log, then as a
completion, accepting the first whose `build_id` is non-empty. -/

/-- `BuildStatus` of `status-dashboard-api/main.go`. -/
structure BuildStatusRec where
  id : String
  repositoryURL : String
  branch : String
  commitHash : String
  status : String
  message : String
  createdAt : Nat
  updatedAt : Nat
  artifactURL : String
  logs : List String
  deriving DecidableEq, Repr

/-- The dashboard's view of Redis: `build:<id>` records and `logs:<id>`
lists, each keyed by build id. -/
structure DashStore where
  builds : List (String × BuildStatusRec)
  logLists : List (String × List String)
  deriving DecidableEq, Repr

/-- Redis `Set` on a `build:<id>` key: replace the record, or add it when
absent. -/
def setBuild (bs : List (String × BuildStatusRec)) (id : String)
    (r : BuildStatusRec) : List (String × BuildStatusRec) :=
  match bs.lookup id with
  | none => (id, r) :: bs
  | some _ => bs.map (fun p => if p.1 = id then (id, r) else p)

/-- Redis `RPush` on a `logs:<id>` key. -/
def pushLog (ls : List (String × List String)) (id : String) (line : String) :
    List (String × List String) :=
  match ls.lookup id with
  | none => (id, [line]) :: ls
  | some cur => ls.map (fun p => if p.1 = id then (id, cur ++ [line]) else p)

/-- `StatusDashboardAPI.ProcessBuildStatus`: read `build:<id>`; when absent
create a fresh record from the event (CreatedAt := the event time), when
present overwrite `Status`, `Message`, `UpdatedAt`; write `build:<id>`
back.  Returns the new store and the keys written. -/
def dashProcessBuildStatus (st : DashStore) (m : BuildStatusMessage) :
    DashStore × List String :=
  match st.builds.lookup m.buildID with
  | none =>
      let b : BuildStatusRec :=
        ⟨m.buildID, "", "", "", m.status, m.message, m.updatedAt, m.updatedAt, "", []⟩
      ({ st with builds := setBuild st.builds m.buildID b }, ["build:" ++ m.buildID])
  | some b =>
      let b' : BuildStatusRec :=
        { b with status := m.status, message := m.message, updatedAt := m.updatedAt }
      ({ st with builds := setBuild st.builds m.buildID b' }, ["build:" ++ m.buildID])

/-- `StatusDashboardAPI.ProcessBuildLog`: append the line to `logs:<id>`. -/
def dashProcessBuildLog (st : DashStore) (m : BuildLogMessage) :
    DashStore × List String :=
  ({ st with logLists := pushLog st.logLists m.buildID m.logEntry },
    ["logs:" ++ m.buildID])

/-- `StatusDashboardAPI.ProcessBuildCompletion`: read `build:<id>`; when
absent (any Get error, `redis.Nil` included) log and return without
writing; when present overwrite `Status`, `UpdatedAt`, `ArtifactURL` and
write the record back. -/
def dashProcessBuildCompletion (st : DashStore) (m : BuildCompletionMessage) :
    DashStore × List String :=
  match st.builds.lookup m.buildID with
  | none => (st, [])
  | some b =>
      let b' : BuildStatusRec :=
        { b with
            status := m.status
            updatedAt := m.completedAt
            artifactURL := m.artifactURL }
      ({ st with builds := setBuild st.builds m.buildID b' }, ["build:" ++ m.buildID])

/-- The dashboard's consumer handler (`main()` of the dashboard): try the
payload as a status message, then as a log, then as a completion, taking
the first decode whose `build_id` is non-empty.  Go's lenient
`json.Unmarshal` never fails on a JSON object, so the status decode wins
for every event produced by this system. -/
def dashHandleMessage (st : DashStore) (value : WireMessage) :
    DashStore × List String :=
  let sMsg := unmarshalAsStatus value
  if sMsg.buildID ≠ "" then dashProcessBuildStatus st sMsg
  else
    let lMsg := unmarshalAsLog value
    if lMsg.buildID ≠ "" then dashProcessBuildLog st lMsg
    else
      let cMsg := unmarshalAsCompletion value
      if cMsg.buildID ≠ "" then dashProcessBuildCompletion st cMsg
      else (st, [])

/-- Fold a sequence of delivered payloads through the dashboard's handler. -/
def dashConsume (st : DashStore) (msgs : List WireMessage) : DashStore :=
  msgs.foldl (fun s v => (dashHandleMessage s v).1) st

/-! ## Notification Fan-out (`gobuild/notification/main.go`) -/

/-- A registered WebSocket subscriber (`WebSocketClient`): `HandleWebSocket`
only registers clients whose `buildId` query parameter is non-empty. -/
structure WSClient where
  clientID : String
  buildID : String
  deriving DecidableEq, Repr

/-- A JSON frame pushed to one subscriber, tagged with its `type`
discriminator. -/
inductive Frame where
  | statusF (toClient buildID status message : String) (time : Nat)
  | logF (toClient buildID logLine : String) (time : Nat)
  | completionF (toClient buildID status artifactUrl : String)
      (duration : Nat) (time : Nat)
  deriving DecidableEq, Repr

/-- `NotificationService.BroadcastBuildStatus`: push a status frame to each
client whose filter equals the event's build id or is empty. -/
def broadcastBuildStatus (clients : List WSClient) (m : BuildStatusMessage) :
    List Frame :=
  clients.filterMap fun c =>
    if c.buildID = m.buildID || c.buildID = "" then
      some (.statusF c.clientID m.buildID m.status m.message m.updatedAt)
    else none

/-- `NotificationService.BroadcastBuildLog`. -/
def broadcastBuildLog (clients : List WSClient) (m : BuildLogMessage) :
    List Frame :=
  clients.filterMap fun c =>
    if c.buildID = m.buildID || c.buildID = "" then
      some (.logF c.clientID m.buildID m.logEntry m.timestamp)
    else none

/-- `NotificationService.BroadcastBuildCompletion`. -/
def broadcastBuildCompletion (clients : List WSClient)
    (m : BuildCompletionMessage) : List Frame :=
  clients.filterMap fun c =>
    if c.buildID = m.buildID || c.buildID = "" then
      some (.completionF c.clientID m.buildID m.status m.artifactURL
        m.duration m.completedAt)
    else none

/-- The notification consumer handler (`main()` of the notification
service): `topic := string(key)` — it switches on the *message key* against
the three topic names and broadcasts accordingly; any other key value
matches no case and pushes nothing. -/
def notificationDispatch (clients : List WSClient) (key : String)
    (value : WireMessage) : List Frame :=
  if key = "build-status" then broadcastBuildStatus clients (unmarshalAsStatus value)
  else if key = "build-logs" then broadcastBuildLog clients (unmarshalAsLog value)
  else if key = "build-completions" then
    broadcastBuildCompletion clients (unmarshalAsCompletion value)
  else []

/-! ## Consumer subscription retry (`shared/kafka/consumer.go`) -/

/-- Observable outcome of `Consumer.Subscribe`: the returned error (`none`
is success), how many `SubscribeTopics` attempts were made, and the sleeps
performed between attempts, in nanoseconds. -/
structure SubscribeTrace where
  result : Option String
  attempts : Nat
  sleeps : List Nat
  deriving DecidableEq, Repr

/-- One backoff step: Go computes
`time.Duration(float64(retryDelay) * 1.5)`; for the delays reachable from
2s every product is exactly representable in float64 and the `Duration`
cast truncates, so this is natural-number `d * 3 / 2`. -/
def nextRetryDelay (d : Nat) : Nat := d * 3 / 2

/-- The retry loop of `Consumer.Subscribe`: attempt `i` (0-based) with
`remaining = 15 - i` tries left; on success return nil; on failure sleep
and grow the delay unless this was the last attempt, in which case the
last error is returned.  `env i` is the error of attempt `i` (`none` =
success).  The loop retries on every error: no inspection of the error
class happens, despite the comment in the source. -/
def subscribeAux (env : Nat → Option String) :
    Nat → Nat → Nat → SubscribeTrace
  | 0, i, _ => ⟨some "", i, []⟩
  | remaining + 1, i, delay =>
      match env i with
      | none => ⟨none, i + 1, []⟩
      | some e =>
          if remaining = 0 then ⟨some e, i + 1, []⟩
          else
            let rest := subscribeAux env remaining (i + 1) (nextRetryDelay delay)
            ⟨rest.result, rest.attempts, delay :: rest.sleeps⟩

/-- `Consumer.Subscribe`: `maxRetries := 15`, `retryDelay := 2s`. -/
def subscribe (env : Nat → Option String) : SubscribeTrace :=
  subscribeAux env 15 0 2000000000

end GoBuild

namespace GoBuild

/-! ## C4: canonical record, key schemes, writers -/

/-- The build request used for the canonical-record counterexample. -/
def reqC4 : BuildRequestMessage :=
  ⟨"b4c", "https://example.com/repo.git", "", "", "u1", 100⟩

/-- C4: the claim states there is one canonical record per build under a
single key scheme, written only by the Orchestrator.  Counterexample on the
code: the status-dashboard-api's own event fold writes the canonical
`build:<id>` key (changing the store), and the orchestrator itself writes
each build under two key schemes (`build:<id>` and `build:status:<id>`). -/
theorem canonical_record_two_writers :
    (dashProcessBuildStatus ⟨[], []⟩ ⟨"b4c", "in-progress", "Build started", 5⟩).2 =
      ["build:b4c"] ∧
    (dashProcessBuildStatus ⟨[], []⟩ ⟨"b4c", "in-progress", "Build started", 5⟩).1 ≠
      (⟨[], []⟩ : DashStore) ∧
    (processBuildRequest [] reqC4 110).writtenKeys =
      ["build:b4c", "build:status:b4c"] := by
  decide

/-- C4 (amended): the store has two writers and two key schemes per build:
request processing in the orchestrator writes both `build:<id>` and
`build:status:<id>`, and the status-dashboard-api also writes `build:<id>`
on every status event (and `logs:<id>` on every log event; its completion
handler writes `build:<id>` when the record exists and nothing otherwise).
The builder and the notification service write no store keys — they only
publish events. -/
theorem store_write_key_sets (s : OrchState) (req : BuildRequestMessage)
    (now : Nat) (st : DashStore) (m : BuildStatusMessage)
    (l : BuildLogMessage) (c : BuildCompletionMessage) :
    (processBuildRequest s req now).writtenKeys =
      ["build:" ++ req.id, "build:status:" ++ req.id] ∧
    (dashProcessBuildStatus st m).2 = ["build:" ++ m.buildID] ∧
    (dashProcessBuildLog st l).2 = ["logs:" ++ l.buildID] ∧
    ((dashProcessBuildCompletion st c).2 = [] ∨
      (dashProcessBuildCompletion st c).2 = ["build:" ++ c.buildID]) := by
  refine ⟨rfl, ?_, rfl, ?_⟩
  · unfold dashProcessBuildStatus
    cases st.builds.lookup m.buildID <;> simp
  · unfold dashProcessBuildCompletion
    cases st.builds.lookup c.buildID <;> simp

/-! ## C5: notification fan-out -/

/-- The build request used for the notification counterexample. -/
def reqC5 : BuildRequestMessage :=
  ⟨"b5", "https://example.com/repo.git", "", "", "u1", 100⟩

/-- An environment whose working-directory creation fails at once (shortest
builder trace). -/
def envC5 : BuildEnv :=
  ⟨some "permission denied", .ok "", .ok "", false, false, false, false,
    false, false, .ok "", .ok "", .ok "", .ok "", .ok "", none⟩

/-- C5: every producer keys events by the build id (first conjunct: every
publish of a builder run carries the build id as its Kafka key), and the
per-event broadcast does push exactly to the matching subscribers (second
conjunct); but the consumer handler of the notification service switches on
`string(key)` — the build id — against topic names, so a delivered event
whose key is the build id is dispatched to no broadcast at all (third
conjunct), while the same payload under the topic-name key would have been
delivered (fourth conjunct). -/
theorem notification_dispatch_never_fires :
    ((processBuildJob reqC5 envC5 7).all fun a =>
      match a with
      | .pub p => p.key = reqC5.id
      | _ => true) = true ∧
    broadcastBuildStatus [⟨"client1", "b5"⟩] ⟨"b5", "in-progress", "Build started", 7⟩ =
      [.statusF "client1" "b5" "in-progress" "Build started" 7] ∧
    notificationDispatch [⟨"client1", "b5"⟩] "b5"
      (.statusW ⟨"b5", "in-progress", "Build started", 7⟩) = [] ∧
    notificationDispatch [⟨"client1", "b5"⟩] "build-status"
      (.statusW ⟨"b5", "in-progress", "Build started", 7⟩) ≠ [] := by
  decide

/-! ## C8: subscribe retry policy -/

/-- C8: evaluated at a broker-unreachable error on every attempt, the code
performs all 15 attempts, sleeping 14 times starting at 2s and growing by
×1.5, and returns the last error — the retry loop never inspects the error
class (its comment notwithstanding), so the non-retryable class of the
claim is retried just like topic-not-found.  Second conjunct: a
topic-not-found error on the first attempt alone leads to one 2s sleep and
success on attempt 2. -/
theorem subscribe_retries_broker_unreachable :
    subscribe (fun _ => some "Local: Broker transport failure") =
      ⟨some "Local: Broker transport failure", 15,
        [2000000000, 3000000000, 4500000000, 6750000000, 10125000000,
          15187500000, 22781250000, 34171875000, 51257812500, 76886718750,
          115330078125, 172995117187, 259492675780, 389239013670]⟩ ∧
    subscribe (fun i => if i = 0 then some "Subscribed topic not available" else none) =
      ⟨none, 2, [2000000000]⟩ := by
  decide

/-! ## C2: the artifact-reference invariant -/

/-- The payloads a builder trace publishes, in emission order. -/
def publishesOf (t : List Action) : List Publish :=
  t.filterMap fun a =>
    match a with
    | .pub p => some p
    | _ => none

/-- The submitted request of the successful Node build `b2`. -/
def reqC2 : BuildRequestMessage :=
  ⟨"b2", "https://example.com/good-node-repo.git", "", "", "u1", 100⟩

/-- Environment of a fully successful Node build (`package.json` and
`package-lock.json` present, no `build.sh`). -/
def envC2 : BuildEnv :=
  ⟨none, .ok "done", .ok "", false, true, false, false, true, false,
    .ok "", .ok "installed", .ok "built", .ok "", .ok "", none⟩

/-- Everything delivered to the status-dashboard-api for build `b2`, in
emission order: the orchestrator's publishes followed by the builder's,
restricted to the three topics the dashboard subscribes to. -/
def deliveredC2 : List WireMessage :=
  ((processBuildRequest [] reqC2 105).published ++
      publishesOf (processBuildJob reqC2 envC2 150)).filterMap
    fun p => if p.topic = "build-jobs" then none else some p.msg

/-- C2: the claim states `artifact_reference` is non-empty iff the phase is
Succeeded.  Evaluation at the failing input (a fully successful build whose
events are delivered in emission order): the builder does publish the
success completion carrying `/artifacts/b2`, but the dashboard's consumer
decodes every payload as a status message (lenient JSON, non-empty
build_id), so `ProcessBuildCompletion` never runs: the final record has the
succeeded status "completed" and an empty artifact reference — and no log
list is ever stored either. -/
theorem dashboard_artifact_reference_never_set :
    completionsOf (processBuildJob reqC2 envC2 150) =
      [⟨"b2", "success", "/artifacts/b2", 50, 150⟩] ∧
    ((dashConsume ⟨[], []⟩ deliveredC2).builds.lookup "b2").map
        BuildStatusRec.status = some "completed" ∧
    ((dashConsume ⟨[], []⟩ deliveredC2).builds.lookup "b2").map
        BuildStatusRec.artifactURL = some "" ∧
    (dashConsume ⟨[], []⟩ deliveredC2).logLists = [] := by
  decide

end GoBuild

namespace GoBuild

/-! ## C7: build strategy selection -/

/-- C7: with a `build.sh` present the custom script runs and the marker
files are never consulted (the result is invariant under every marker
assignment); without it, `package.json` selects the Node recipe, otherwise
`go.mod` selects the Go recipe, and with neither the build fails with the
unknown-project-type error without running anything. -/
theorem build_strategy_selection (id : String) (env : BuildEnv) (now : Nat) :
    (env.hasBuildScript = true →
      executeBuild id env now = runBuildScript id env now ∧
      ∀ p g pn pl y : Bool,
        executeBuild id
          { env with
              hasPackageJson := p
              hasGoMod := g
              hasPnpmLock := pn
              hasPackageLock := pl
              hasYarnLock := y } now =
          executeBuild id env now) ∧
    (env.hasBuildScript = false → env.hasPackageJson = true →
      executeBuild id env now = buildNodeProject id env now) ∧
    (env.hasBuildScript = false → env.hasPackageJson = false →
      env.hasGoMod = true → executeBuild id env now = buildGoProject id env now) ∧
    (env.hasBuildScript = false → env.hasPackageJson = false →
      env.hasGoMod = false →
      executeBuild id env now =
        ([], some "unknown project type: unknown, no build script found")) := by
  obtain ⟨m, cl, co, hsB, hpj, hgm, pn, pl, yl, sc, ins, nb, gb, tr, up⟩ := env
  refine ⟨fun hs => ?_, fun hs hp => ?_, fun hs hp hg => ?_, fun hs hp hg => ?_⟩ <;>
    simp_all [executeBuild, buildByProjectType, detectProjectType, runBuildScript]

/-- A script-bearing working directory with every marker file also
present. -/
def envC7 : BuildEnv :=
  ⟨none, .ok "", .ok "", true, true, true, true, true, true,
    .ok "script ran", .ok "", .ok "", .ok "", .ok "", none⟩

/-- Witness for `build_strategy_selection`: with `build.sh` present the
script recipe is chosen and flipping all marker files changes nothing. -/
theorem build_strategy_selection_witness :
    executeBuild "w7" envC7 3 = runBuildScript "w7" envC7 3 ∧
    executeBuild "w7"
      { envC7 with
          hasPackageJson := false
          hasGoMod := false
          hasPnpmLock := false
          hasPackageLock := false
          hasYarnLock := false } 3 =
      executeBuild "w7" envC7 3 := by
  refine ⟨((build_strategy_selection "w7" envC7 3).1 rfl).1, ?_⟩
  exact ((build_strategy_selection "w7" envC7 3).1 rfl).2 false false false false false

/-! ## C9: Node package-manager selection and install/build order -/

/-- C9: lock-file priority pnpm-lock.yaml > package-lock.json > yarn.lock
with npm as the default; the chosen manager's install command is the first
subprocess the Node recipe runs, the build command runs only after it, and
an install failure means the build command never runs. -/
theorem node_package_manager_selection (id : String) (env : BuildEnv) (now : Nat) :
    (env.hasPnpmLock = true → nodePackageManagerUsed env = "pnpm") ∧
    (env.hasPnpmLock = false → env.hasPackageLock = true →
      nodePackageManagerUsed env = "npm") ∧
    (env.hasPnpmLock = false → env.hasPackageLock = false →
      env.hasYarnLock = true → nodePackageManagerUsed env = "yarn") ∧
    (env.hasPnpmLock = false → env.hasPackageLock = false →
      env.hasYarnLock = false → nodePackageManagerUsed env = "npm") ∧
    (∀ out, env.install = .ok out →
      runsOf (buildNodeProject id env now).1 =
        [(nodePackageManagerUsed env, ["install"]),
          (nodePackageManagerUsed env, ["run", "build"])]) ∧
    (∀ e out, env.install = .fail e out →
      runsOf (buildNodeProject id env now).1 =
        [(nodePackageManagerUsed env, ["install"])] ∧
      (buildNodeProject id env now).2 =
        some ("failed to install dependencies: " ++ e)) := by
  obtain ⟨m, cl, co, hsB, hpj, hgm, pn, pl, yl, sc, ins, nb, gb, tr, up⟩ := env
  refine ⟨fun h1 => ?_, fun h1 h2 => ?_, fun h1 h2 h3 => ?_, fun h1 h2 h3 => ?_,
    fun out hok => ?_, fun e out hfail => ?_⟩
  · simp_all [nodePackageManagerUsed, detectNodePackageManager]
  · simp_all [nodePackageManagerUsed, detectNodePackageManager]
  · simp_all [nodePackageManagerUsed, detectNodePackageManager]
  · simp_all [nodePackageManagerUsed, detectNodePackageManager]
  · subst hok
    cases nb <;> simp [buildNodeProject, runsOf, logPub]
  · subst hfail
    simp [buildNodeProject, runsOf, logPub]

/-- Witness for `node_package_manager_selection` at a concrete environment:
only `yarn.lock` present, install succeeding. -/
theorem node_package_manager_selection_witness :
    nodePackageManagerUsed
      ⟨none, .ok "", .ok "", false, true, false, false, false, true,
        .ok "", .ok "i", .ok "b", .ok "", .ok "", none⟩ = "yarn" ∧
    runsOf (buildNodeProject "w9"
      ⟨none, .ok "", .ok "", false, true, false, false, false, true,
        .ok "", .ok "i", .ok "b", .ok "", .ok "", none⟩ 4).1 =
      [("yarn", ["install"]), ("yarn", ["run", "build"])] := by
  refine ⟨(node_package_manager_selection "w9"
      ⟨none, .ok "", .ok "", false, true, false, false, false, true,
        .ok "", .ok "i", .ok "b", .ok "", .ok "", none⟩ 4).2.2.1 rfl rfl rfl, ?_⟩
  exact (node_package_manager_selection "w9"
      ⟨none, .ok "", .ok "", false, true, false, false, false, true,
        .ok "", .ok "i", .ok "b", .ok "", .ok "", none⟩ 4).2.2.2.2.1 "i" rfl

end GoBuild

namespace GoBuild

/-! ## C10: the commit hash is never read by the Builder -/

/-- C10: two dispatched jobs identical except in `commit_hash` produce the
byte-for-byte same builder behaviour — the same subprocess invocations and
the same published events (timestamps are the shared clock parameter), for
every environment: `ProcessBuildJob` never reads the `CommitHash` field, so
the requested commit is never checked out. -/
theorem builder_ignores_commit_hash (req : BuildRequestMessage) (c : String)
    (env : BuildEnv) (now : Nat) :
    processBuildJob { req with commitHash := c } env now =
      processBuildJob req env now := by
  cases req
  rfl

end GoBuild


namespace GoBuild

/-! ## C6: the failure path -/

theorem completionsOf_append (a b : List Action) :
    completionsOf (a ++ b) = completionsOf a ++ completionsOf b := by
  simp [completionsOf]

theorem completionsOf_failBuild (id r : String) (now : Nat) :
    completionsOf (failBuild id r now) = [⟨id, "failure", "", 0, now⟩] := by
  simp [completionsOf, failBuild, logPub]

theorem completionsOf_runBuildScript (id : String) (env : BuildEnv) (now : Nat) :
    completionsOf (runBuildScript id env now).1 = [] := by
  cases h : env.script <;> simp [runBuildScript, h, completionsOf, logPub]

theorem completionsOf_buildNodeProject (id : String) (env : BuildEnv) (now : Nat) :
    completionsOf (buildNodeProject id env now).1 = [] := by
  cases hi : env.install <;> cases hn : env.nodeBuild <;>
    simp [buildNodeProject, hi, hn, completionsOf, logPub]

theorem completionsOf_buildGoProject (id : String) (env : BuildEnv) (now : Nat) :
    completionsOf (buildGoProject id env now).1 = [] := by
  cases h : env.goBuild <;> simp [buildGoProject, h, completionsOf, logPub]

theorem completionsOf_buildByProjectType (id : String) (env : BuildEnv)
    (now : Nat) (pt : String) :
    completionsOf (buildByProjectType id env now pt).1 = [] := by
  unfold buildByProjectType
  split_ifs
  · exact completionsOf_buildNodeProject id env now
  · exact completionsOf_buildGoProject id env now
  · simp [completionsOf]

theorem completionsOf_executeBuild (id : String) (env : BuildEnv) (now : Nat) :
    completionsOf (executeBuild id env now).1 = [] := by
  unfold executeBuild
  split_ifs
  · exact completionsOf_runBuildScript id env now
  · exact completionsOf_buildByProjectType id env now _

theorem completionsOf_createAndUploadArtifact (id : String) (env : BuildEnv)
    (now : Nat) :
    completionsOf (createAndUploadArtifact id env now).1 = [] := by
  cases ht : env.tar <;> cases hu : env.upload <;>
    simp [createAndUploadArtifact, ht, hu, completionsOf, logPub]

/-- When the post-checkout region fails, `finishBuild` is a
completion-free prefix followed by the `failBuild` block for the reason. -/
theorem finishBuild_failure (req : BuildRequestMessage) (env : BuildEnv)
    (now : Nat) (r : String) (h : finishFailureReason req env now = some r) :
    ∃ pre, finishBuild req env now = pre ++ failBuild req.id r now ∧
      completionsOf pre = [] := by
  unfold finishFailureReason at h
  unfold finishBuild
  split at h
  next t e heq =>
      obtain rfl : e = r := Option.some.inj h
      refine ⟨t, rfl, ?_⟩
      have h2 := completionsOf_executeBuild req.id env now
      rw [heq] at h2
      exact h2
  next t heq =>
      split at h
      next t2 e heq2 =>
          obtain rfl : ("Failed to create artifact: " ++ e) = r := Option.some.inj h
          refine ⟨t ++ t2, ?_, ?_⟩
          · rw [List.append_assoc]
          · have h2 := completionsOf_executeBuild req.id env now
            have h3 := completionsOf_createAndUploadArtifact req.id env now
            rw [heq] at h2
            rw [heq2] at h3
            rw [completionsOf_append, h2, h3]
            rfl
      next t2 heq2 => exact absurd h (by simp)

/-- C6: whenever a step from working-directory creation through upload
fails, the published trace is a completion-free prefix followed verbatim by
the `failBuild` block — the log line containing the reason, then
`Completed{failure, artifact "", duration 0}`, then
`StatusChanged{failed, reason}` — with nothing after it (no further step
runs) and exactly one completion in the whole trace (the build is never
retried). -/
theorem builder_failure_path (req : BuildRequestMessage) (env : BuildEnv)
    (now : Nat) (r : String) (h : firstFailureReason req env now = some r) :
    ∃ pre, processBuildJob req env now = pre ++ failBuild req.id r now ∧
      completionsOf pre = [] ∧
      completionsOf (processBuildJob req env now) =
        [⟨req.id, "failure", "", 0, now⟩] := by
  suffices hsuf : ∃ pre,
      processBuildJob req env now = pre ++ failBuild req.id r now ∧
      completionsOf pre = [] by
    obtain ⟨pre, h1, h2⟩ := hsuf
    refine ⟨pre, h1, h2, ?_⟩
    rw [h1, completionsOf_append, h2, completionsOf_failBuild]
    rfl
  obtain ⟨m, cl, co, hsB, hpj, hgm, pn, pl, yl, sc, ins, nb, gb, tr, up⟩ := env
  cases m with
  | some e =>
      simp only [firstFailureReason, Option.some.injEq] at h
      subst h
      exact ⟨[.pub ⟨"build-status", req.id,
          .statusW ⟨req.id, "in-progress", "Build started", now⟩⟩],
        rfl, by simp [completionsOf]⟩
  | none =>
      cases cl with
      | fail e out =>
          simp only [firstFailureReason, Option.some.injEq] at h
          subst h
          exact ⟨[.pub ⟨"build-status", req.id,
              .statusW ⟨req.id, "in-progress", "Build started", now⟩⟩,
            logPub req.id "Cloning repository..." now,
            .run "git" ["clone", req.repositoryURL, buildDirOf req.id] "",
            logPub req.id ("Clone failed: " ++ e ++ "\nOutput: " ++ out) now],
            rfl, by simp [completionsOf, logPub]⟩
      | ok out =>
          by_cases hb : needsCheckout req.branch = true
          · cases co with
            | fail e out2 =>
                simp only [firstFailureReason, hb, if_true, Option.some.injEq] at h
                subst h
                refine ⟨[.pub ⟨"build-status", req.id,
                    .statusW ⟨req.id, "in-progress", "Build started", now⟩⟩,
                  logPub req.id "Cloning repository..." now,
                  .run "git" ["clone", req.repositoryURL, buildDirOf req.id] "",
                  logPub req.id ("Repository cloned successfully\n" ++ out) now,
                  logPub req.id ("Checking out branch: " ++ req.branch) now,
                  .run "git" ["checkout", req.branch] (buildDirOf req.id),
                  logPub req.id ("Checkout failed: " ++ e ++ "\nOutput: " ++ out2) now],
                  ?_, by simp [completionsOf, logPub]⟩
                simp [processBuildJob, hb]
            | ok out2 =>
                simp only [firstFailureReason, hb, if_true, Option.some.injEq] at h
                obtain ⟨preF, hf1, hf2⟩ := finishBuild_failure _ _ _ _ h
                refine ⟨[.pub ⟨"build-status", req.id,
                    .statusW ⟨req.id, "in-progress", "Build started", now⟩⟩,
                  logPub req.id "Cloning repository..." now,
                  .run "git" ["clone", req.repositoryURL, buildDirOf req.id] "",
                  logPub req.id ("Repository cloned successfully\n" ++ out) now,
                  logPub req.id ("Checking out branch: " ++ req.branch) now,
                  .run "git" ["checkout", req.branch] (buildDirOf req.id),
                  logPub req.id ("Branch checked out successfully\n" ++ out2) now] ++ preF,
                  ?_, by simpa [completionsOf, logPub] using hf2⟩
                simp [processBuildJob, hb, hf1]
          · simp only [firstFailureReason, hb, if_false] at h
            obtain ⟨preF, hf1, hf2⟩ := finishBuild_failure _ _ _ _ h
            refine ⟨[.pub ⟨"build-status", req.id,
                .statusW ⟨req.id, "in-progress", "Build started", now⟩⟩,
              logPub req.id "Cloning repository..." now,
              .run "git" ["clone", req.repositoryURL, buildDirOf req.id] "",
              logPub req.id ("Repository cloned successfully\n" ++ out) now] ++ preF,
              ?_, by simpa [completionsOf, logPub] using hf2⟩
            simp [processBuildJob, hb, hf1]

end GoBuild

namespace GoBuild

/-- The request of the failing-clone witness build. -/
def reqC6 : BuildRequestMessage :=
  ⟨"b6", "https://example.com/missing.git", "", "", "u1", 100⟩

/-- An environment whose clone fails (nonexistent repository). -/
def envC6 : BuildEnv :=
  ⟨none, .fail "exit status 128" "fatal: repository not found", .ok "",
    false, false, false, false, false, false,
    .ok "", .ok "", .ok "", .ok "", .ok "", none⟩

/-- Witness for `builder_failure_path`: the clone failure of `b6`. -/
theorem builder_failure_path_witness :
    firstFailureReason reqC6 envC6 9 =
      some "Failed to clone repository: exit status 128" ∧
    ∃ pre, processBuildJob reqC6 envC6 9 =
        pre ++ failBuild reqC6.id "Failed to clone repository: exit status 128" 9 ∧
      completionsOf pre = [] ∧
      completionsOf (processBuildJob reqC6 envC6 9) =
        [⟨reqC6.id, "failure", "", 0, 9⟩] :=
  ⟨by decide,
    builder_failure_path reqC6 envC6 9
      "Failed to clone repository: exit status 128" (by decide)⟩

end GoBuild
